import Mathlib

/-!
Shallow embedding of the connection/session management and command-dispatch
core of the `db-cilent` repository: the relational session registry
(`src/main/database/databaseManager.ts`, class `DatabaseManager`), the
key-value session registry (`redisManager.ts`, class `RedisManager`) and the
IPC command router (`main/index.ts`, the `ipcMain.handle` registrations).

Modelling conventions:
* Driver handles (`mysql2` connections, `ioredis` clients) are external
  collaborators; they are embedded as records of oracle functions returning
  `Except String _` (a thrown driver error is `Except.error msg`).
* Each registry is an association list from session id to its connection
  record, mirroring the TypeScript `Map<string, Connection>`.
* Every operation additionally returns the list of driver calls it issued,
  in order, so that claims about which driver calls are attempted
  ("raised before any driver call", "best-effort drop", probe close) are
  statable.  Wall-clock timing (`Date.now()`) is not modelled; the
  `executionTime` fields are fixed to 0.
* JavaScript truthiness defaulting (`x || d`, where `0`, `''`, `undefined`
  are falsy) is modelled by `jsOrNat` / `jsOrStr`.
-/

namespace DbClient

/-- JS `x || d` for an optional number: `undefined` and `0` fall back to `d`. -/
def jsOrNat (x : Option Nat) (d : Nat) : Nat :=
  match x with
  | some v => if v = 0 then d else v
  | none => d

/-- JS `x || d` for an optional string: `undefined` and `""` fall back to `d`. -/
def jsOrStr (x : Option String) (d : String) : String :=
  match x with
  | some v => if v = "" then d else v
  | none => d

/-- JS `x || undefined` for an optional string: `""` becomes `undefined`. -/
def jsOrUndef (x : Option String) : Option String :=
  match x with
  | some v => if v = "" then none else some v
  | none => none

/-- `Map.get` of the TypeScript `Map<string, α>` session registries. -/
def mapGet {α : Type} : List (String × α) → String → Option α
  | [], _ => none
  | (k', v) :: rest, k => if k' = k then some v else mapGet rest k

/-- `Map.set`: replace the entry for the key, or append a fresh one. -/
def mapSet {α : Type} : List (String × α) → String → α → List (String × α)
  | [], k, v => [(k, v)]
  | (k', v') :: rest, k, v =>
      if k' = k then (k, v) :: rest else (k', v') :: mapSet rest k v

/-- `Map.delete`: drop the entry for the key. -/
def mapDelete {α : Type} (m : List (String × α)) (k : String) : List (String × α) :=
  m.filter (fun p => p.1 ≠ k)

/-- `array.join(', ')` as used by every statement builder. -/
def joinComma (parts : List String) : String :=
  String.intercalate ", " parts

/-- JS `s.toUpperCase()` (character-wise, as `String.toUpper`; defined on
the character list so that proofs can evaluate it). -/
def strToUpper (s : String) : String :=
  ⟨s.data.map Char.toUpper⟩

/-- JS `s.startsWith(p)` (defined on the character lists so that proofs can
evaluate it). -/
def strStartsWith (s p : String) : Bool :=
  p.data.isPrefixOf s.data

/-! ### Default-value formatting (`DatabaseManager.formatDefaultValue`) -/

/-- The special default values the source leaves unquoted
(`specialValues` in `formatDefaultValue`). -/
def specialValues : List String :=
  ["NULL", "CURRENT_TIMESTAMP", "CURRENT_DATE", "CURRENT_TIME", "NOW()"]

/-- `specialValues.some(v => upper.startsWith(v))`. -/
def startsWithSpecial (upper : String) : Bool :=
  specialValues.any (fun v => strStartsWith upper v)

/-- The regex `^-?\d+(\.\d+)?$` of `formatDefaultValue`. -/
def isNumericLiteral (s : String) : Bool :=
  let cs : List Char :=
    match s.data with
    | '-' :: r => r
    | r => r
  let intPart := cs.takeWhile (fun c => c.isDigit)
  let rest := cs.dropWhile (fun c => c.isDigit)
  !intPart.isEmpty &&
    (match rest with
     | [] => true
     | '.' :: ds => !ds.isEmpty && ds.all (fun c => c.isDigit)
     | _ => false)

/-- `DatabaseManager.formatDefaultValue`: keyword prefixes and numeric
literals pass through unquoted, `''` stays `''`, everything else is wrapped
in single quotes; a falsy (empty) input returns the empty string. -/
def formatDefaultValue (dv : String) : String :=
  if dv = "" then ""
  else if startsWithSpecial (strToUpper dv) then dv
  else if isNumericLiteral dv then dv
  else if dv = "''" then "''"
  else "'" ++ dv ++ "'"

/-! ### `CREATE TABLE` statement building (`DatabaseManager.createTable`) -/

/-- One column descriptor of `createTable` (the TS inline object type). -/
structure ColumnSpec where
  name : String
  type : String
  nullable : Bool
  defaultValue : Option String := none
  primaryKey : Bool := false
  autoIncrement : Bool := false
  unique : Bool := false
  unsigned : Bool := false
  comment : Option String := none

/-- One index descriptor of `createTable` (`type` is INDEX, UNIQUE or FULLTEXT). -/
structure IndexSpec where
  name : String
  columns : List String
  type : String

/-- The `DEFAULT` clause `createTable` appends for a present, non-empty
default value (its inline special-value handling: `NULL` and
`CURRENT_TIMESTAMP` compared case-insensitively stay unquoted, everything
else is quoted). -/
def createTableDefaultClause (dv : String) : String :=
  if strToUpper dv = "NULL" then " DEFAULT NULL"
  else if strToUpper dv = "CURRENT_TIMESTAMP" then " DEFAULT CURRENT_TIMESTAMP"
  else " DEFAULT '" ++ dv ++ "'"

/-- The column definition `createTable` builds per column: each
`if (...) def += ...` of the source becomes one appended conditional piece. -/
def createTableColumnDef (col : ColumnSpec) : String :=
  "`" ++ col.name ++ "` " ++ col.type
  ++ (if col.unsigned then " UNSIGNED" else "")
  ++ (if !col.nullable then " NOT NULL" else "")
  ++ (if col.autoIncrement then " AUTO_INCREMENT" else "")
  ++ (match col.defaultValue with
      | some dv => if dv ≠ "" then createTableDefaultClause dv else ""
      | none => "")
  ++ (match col.comment with
      | some c => if c ≠ "" then " COMMENT '" ++ c ++ "'" else ""
      | none => "")

/-- The full `CREATE TABLE` statement text `createTable` sends: column
definitions, then the PRIMARY KEY constraint, UNIQUE KEY constraints and
index definitions. -/
def createTableStatement (tableName : String) (cols : List ColumnSpec)
    (idxs : List IndexSpec) : String :=
  let columnDefs := cols.map createTableColumnDef
  let primaryKeys := (cols.filter (fun c => c.primaryKey)).map
    (fun c => "`" ++ c.name ++ "`")
  let uniqueKeys := (cols.filter (fun c => c.unique && !c.primaryKey)).map
    (fun c => "`" ++ c.name ++ "`")
  let pkDefs := if primaryKeys.isEmpty then []
    else ["PRIMARY KEY (" ++ joinComma primaryKeys ++ ")"]
  let ukDefs := uniqueKeys.map (fun uk => "UNIQUE KEY (" ++ uk ++ ")")
  let idxDefs := idxs.enum.map (fun p =>
    let i := p.1
    let idx := p.2
    let idxName := jsOrStr (some idx.name) ("idx_" ++ tableName ++ "_" ++ toString i)
    let idxCols := joinComma (idx.columns.map (fun c => "`" ++ c ++ "`"))
    if idx.type = "UNIQUE" then "UNIQUE KEY `" ++ idxName ++ "` (" ++ idxCols ++ ")"
    else if idx.type = "FULLTEXT" then
      "FULLTEXT KEY `" ++ idxName ++ "` (" ++ idxCols ++ ")"
    else "KEY `" ++ idxName ++ "` (" ++ idxCols ++ ")")
  "CREATE TABLE `" ++ tableName ++ "` ("
    ++ joinComma (columnDefs ++ pkDefs ++ ukDefs ++ idxDefs) ++ ")"

/-! ### Redis glob patterns

The `KEYS pattern` command is executed by the external Redis server, not by
repository code; `globMatch` models its documented glob semantics (`*` any
run, `?` any one character, other characters literally) as far as the claims
need it. -/

/-- Glob matching of the key-value backend's `KEYS` command: `*` matches
any run of characters (any split of the remaining input), `?` any one
character, anything else itself. -/
def globMatch : List Char → List Char → Bool
  | [], s => s.isEmpty
  | p :: ps, s =>
      if p = '*' then
        (List.range (s.length + 1)).any (fun i => globMatch ps (s.drop i))
      else
        match s with
        | [] => false
        | c :: s' => (p = '?' || p = c) && globMatch ps s'

/-! ### MySQL driver model and `DatabaseManager` -/

/-- One result row, as the driver's record objects: field name/value pairs
in column order (`Object.values(row)[0]` is the first pair's value). -/
abbrev Row := List (String × String)

/-- What one `connection.query` resolves to (`[rows, fields]` of
`mysql2/promise`, plus `affectedRows` for write statements). -/
structure QueryRes where
  rows : List Row := []
  fields : Option (List String) := none
  affectedRows : Nat := 0

/-- A live `mysql.Connection` handle, as an oracle: the outcome of each
`query(sql, params)` and of `end()`. -/
structure MyHandle where
  query : String → List String → Except String QueryRes
  endConn : Except String Unit

/-- A driver call issued by the relational registry, for the call trace. -/
inductive MyCall where
  | create
  | query (sql : String)
  | endConn
deriving DecidableEq, Repr

/-- The options object passed to `mysql.createConnection`. -/
structure ConnOpts where
  host : Option String
  port : Nat
  user : Option String
  password : Option String
  database : Option String
deriving DecidableEq, Repr

/-- The `mysql2` module: the outcome of `createConnection(opts)`
(a failed handshake is `Except.error`). -/
structure MySqlEnv where
  createConnection : ConnOpts → Except String MyHandle

/-- `DatabaseConfig.type`. -/
inductive DbType where
  | mysql
  | postgresql
  | sqlite
deriving DecidableEq, Repr

/-- The string the source interpolates into the unsupported-type message. -/
def DbType.toStr : DbType → String
  | .mysql => "mysql"
  | .postgresql => "postgresql"
  | .sqlite => "sqlite"

/-- `DatabaseConfig` of `databaseManager.ts`. -/
structure DatabaseConfig where
  type : DbType
  host : Option String := none
  port : Option Nat := none
  user : Option String := none
  password : Option String := none
  database : Option String := none
  filename : Option String := none
  name : Option String := none

/-- The options `testConnection`/`connect` build from a config
(`port: config.port || 3306`). -/
def connOptsOf (config : DatabaseConfig) : ConnOpts :=
  { host := config.host
    port := jsOrNat config.port 3306
    user := config.user
    password := config.password
    database := config.database }

/-- One registry entry (`interface Connection`). -/
structure DbConn where
  id : String
  config : DatabaseConfig
  connection : Option MyHandle

/-- The relational registry: `private connections: Map<string, Connection>`. -/
abbrev DbState := List (String × DbConn)

/-- An operation outcome paired with the trace of driver calls it issued. -/
abbrev TraceR (α : Type) := Except String α × List MyCall

namespace DatabaseManager

/-- `DatabaseManager.getConnection`: look up the session, throw
`Connection not found or closed` when absent or its handle is null. -/
def getConnection (st : DbState) (cid : String) : Except String MyHandle :=
  match mapGet st cid with
  | some conn =>
      match conn.connection with
      | some h => .ok h
      | none => .error "Connection not found or closed"
  | none => .error "Connection not found or closed"

/-- Run a scoped operation body after `getConnection`; a lookup failure
issues no driver call. -/
def withConn {α : Type} (st : DbState) (cid : String)
    (k : MyHandle → TraceR α) : TraceR α :=
  match getConnection st cid with
  | .error e => (.error e, [])
  | .ok h => k h

/-- `await connection.query(sql, params)` followed by the rest of the body;
the call is recorded in the trace, a rejection aborts the body. -/
def seqQ {α : Type} (h : MyHandle) (sql : String) (params : List String)
    (k : QueryRes → TraceR α) : TraceR α :=
  match h.query sql params with
  | .error e => (.error e, [.query sql])
  | .ok res =>
      let r := k res
      (r.1, .query sql :: r.2)

/-- The `USE \`database\`` statement every scoped operation issues first. -/
def useSqlOf (database : String) : String :=
  "USE `" ++ database ++ "`"

/-- `await connection.query('USE \`db\`')` then the rest of the body. -/
def useQ {α : Type} (h : MyHandle) (database : String)
    (k : Unit → TraceR α) : TraceR α :=
  seqQ h (useSqlOf database) [] (fun _ => k ())

/-- A body that issues no further driver call. -/
def retT {α : Type} (a : α) : TraceR α :=
  (.ok a, [])

/-- `DatabaseManager.testConnection`: open a probe connection, close it,
return true; non-mysql types throw before any driver call. -/
def testConnection (env : MySqlEnv) (config : DatabaseConfig) :
    Except String Bool × List MyCall :=
  match config.type with
  | .mysql =>
      match env.createConnection (connOptsOf config) with
      | .error e => (.error e, [.create])
      | .ok h =>
          match h.endConn with
          | .error e => (.error e, [.create, .endConn])
          | .ok _ => (.ok true, [.create, .endConn])
  | t => (.error ("Database type " ++ t.toStr ++ " is not yet supported"), [])

/-- `DatabaseManager.connect`: open and retain a connection under the fresh
id `newId` (the `uuidv4()` value, supplied as a parameter); registers
nothing on failure. -/
def connect (env : MySqlEnv) (config : DatabaseConfig) (newId : String)
    (st : DbState) : (Except String String × List MyCall) × DbState :=
  match config.type with
  | .mysql =>
      match env.createConnection (connOptsOf config) with
      | .error e => ((.error e, [.create]), st)
      | .ok h =>
          ((.ok newId, [.create]),
           mapSet st newId { id := newId, config := config, connection := some h })
  | t =>
      ((.error ("Database type " ++ t.toStr ++ " is not yet supported"), []), st)

/-- `DatabaseManager.disconnect`: close and remove when present; a silent
no-op when the id is absent or the handle is null.  The entry is removed
only after `end()` resolves. -/
def disconnect (st : DbState) (cid : String) :
    (Except String Unit × List MyCall) × DbState :=
  match mapGet st cid with
  | some conn =>
      match conn.connection with
      | some h =>
          match h.endConn with
          | .error e => ((.error e, [.endConn]), st)
          | .ok _ => ((.ok (), [.endConn]), mapDelete st cid)
      | none => ((.ok (), []), st)
  | none => ((.ok (), []), st)

/-- `Object.values(row)[0]`: the first column value of a driver row. -/
def firstValue (row : Row) : String :=
  match row with
  | [] => ""
  | p :: _ => p.2

/-- `DatabaseManager.getDatabases`: `SHOW DATABASES`, first column of each row. -/
def getDatabases (st : DbState) (cid : String) : TraceR (List String) :=
  withConn st cid fun h =>
  seqQ h "SHOW DATABASES" [] fun res =>
  retT (res.rows.map firstValue)

/-- `DatabaseManager.getTables`: select the database, `SHOW TABLES`. -/
def getTables (st : DbState) (cid database : String) : TraceR (List String) :=
  withConn st cid fun h =>
  useQ h database fun _ =>
  seqQ h "SHOW TABLES" [] fun res =>
  retT (res.rows.map firstValue)

/-- `DatabaseManager.getTableStructure`: `DESCRIBE \`table\``. -/
def getTableStructure (st : DbState) (cid database table : String) :
    TraceR (List Row) :=
  withConn st cid fun h =>
  useQ h database fun _ =>
  seqQ h ("DESCRIBE `" ++ table ++ "`") [] fun res =>
  retT res.rows

/-- The result shape of `executeQuery`. -/
structure QueryOut where
  columns : List String
  rows : List Row
  executionTime : Nat
deriving Repr

/-- `DatabaseManager.executeQuery`: run the statement verbatim after
selecting context (`fields?.map(f => f.name) || []`). -/
def executeQuery (st : DbState) (cid database query : String) : TraceR QueryOut :=
  withConn st cid fun h =>
  useQ h database fun _ =>
  seqQ h query [] fun res =>
  retT { columns := res.fields.getD [], rows := res.rows, executionTime := 0 }

/-- The result shape of `getTableData` (it adds `totalCount`). -/
structure TableDataOut where
  columns : List String
  rows : List Row
  totalCount : Nat
  executionTime : Nat
deriving Repr

/-- `DatabaseManager.getTableData`: `SELECT * FROM \`table\`` with
`totalCount: rows.length`. -/
def getTableData (st : DbState) (cid database table : String) :
    TraceR TableDataOut :=
  withConn st cid fun h =>
  useQ h database fun _ =>
  seqQ h ("SELECT * FROM `" ++ table ++ "`") [] fun res =>
  retT { columns := res.fields.getD []
         rows := res.rows
         totalCount := res.rows.length
         executionTime := 0 }

/-- `DatabaseManager.createTable`. -/
def createTable (st : DbState) (cid database tableName : String)
    (cols : List ColumnSpec) (idxs : List IndexSpec) : TraceR Unit :=
  withConn st cid fun h =>
  useQ h database fun _ =>
  seqQ h (createTableStatement tableName cols idxs) [] fun _ =>
  retT ()

/-- `DatabaseManager.dropTable`. -/
def dropTable (st : DbState) (cid database table : String) : TraceR Unit :=
  withConn st cid fun h =>
  useQ h database fun _ =>
  seqQ h ("DROP TABLE `" ++ table ++ "`") [] fun _ =>
  retT ()

/-- `DatabaseManager.getTableColumns`: `SHOW COLUMNS FROM \`table\``. -/
def getTableColumns (st : DbState) (cid database table : String) :
    TraceR (List Row) :=
  withConn st cid fun h =>
  useQ h database fun _ =>
  seqQ h ("SHOW COLUMNS FROM `" ++ table ++ "`") [] fun res =>
  retT res.rows

/-- `DatabaseManager.updateRow`: parameterized single-row update; the SET
clause follows the update mapping's iteration order. -/
def updateRow (st : DbState) (cid database table : String)
    (primaryKey : String × String) (updates : List (String × String)) :
    TraceR Unit :=
  withConn st cid fun h =>
  useQ h database fun _ =>
  let setClauses := joinComma (updates.map (fun p => "`" ++ p.1 ++ "` = ?"))
  let values := updates.map (fun p => p.2) ++ [primaryKey.2]
  seqQ h ("UPDATE `" ++ table ++ "` SET " ++ setClauses
          ++ " WHERE `" ++ primaryKey.1 ++ "` = ?") values fun _ =>
  retT ()

/-- `DatabaseManager.deleteRow`: parameterized single-row delete. -/
def deleteRow (st : DbState) (cid database table : String)
    (primaryKey : String × String) : TraceR Unit :=
  withConn st cid fun h =>
  useQ h database fun _ =>
  seqQ h ("DELETE FROM `" ++ table ++ "` WHERE `" ++ primaryKey.1 ++ "` = ?")
      [primaryKey.2] fun _ =>
  retT ()

/-- The single-column descriptor of `addColumn`/`modifyColumn`. -/
structure SimpleColumn where
  name : String
  type : String
  nullable : Bool
  defaultValue : Option String := none

/-- The tail (`NOT NULL`, `DEFAULT ...`) both `addColumn` and
`modifyColumn` append to their statement. -/
def columnTail (column : SimpleColumn) : String :=
  (if !column.nullable then " NOT NULL" else "")
  ++ (match column.defaultValue with
      | some dv => if dv ≠ "" then " DEFAULT " ++ formatDefaultValue dv else ""
      | none => "")

/-- `DatabaseManager.addColumn`. -/
def addColumn (st : DbState) (cid database table : String)
    (column : SimpleColumn) : TraceR Unit :=
  withConn st cid fun h =>
  useQ h database fun _ =>
  seqQ h ("ALTER TABLE `" ++ table ++ "` ADD COLUMN `" ++ column.name ++ "` "
          ++ column.type ++ columnTail column) [] fun _ =>
  retT ()

/-- `DatabaseManager.modifyColumn`. -/
def modifyColumn (st : DbState) (cid database table oldName : String)
    (column : SimpleColumn) : TraceR Unit :=
  withConn st cid fun h =>
  useQ h database fun _ =>
  seqQ h ("ALTER TABLE `" ++ table ++ "` CHANGE COLUMN `" ++ oldName ++ "` `"
          ++ column.name ++ "` " ++ column.type ++ columnTail column) [] fun _ =>
  retT ()

/-- `DatabaseManager.dropColumn`. -/
def dropColumn (st : DbState) (cid database table columnName : String) :
    TraceR Unit :=
  withConn st cid fun h =>
  useQ h database fun _ =>
  seqQ h ("ALTER TABLE `" ++ table ++ "` DROP COLUMN `" ++ columnName ++ "`")
      [] fun _ =>
  retT ()

/-- `DatabaseManager.insertRow`: parameterized insert, column order follows
the data mapping's iteration order. -/
def insertRow (st : DbState) (cid database table : String)
    (data : List (String × String)) : TraceR Unit :=
  withConn st cid fun h =>
  useQ h database fun _ =>
  let columns := joinComma (data.map (fun p => "`" ++ p.1 ++ "`"))
  let placeholders := joinComma (data.map (fun _ => "?"))
  let values := data.map (fun p => p.2)
  seqQ h ("INSERT INTO `" ++ table ++ "` (" ++ columns ++ ") VALUES ("
          ++ placeholders ++ ")") values fun _ =>
  retT ()

/-- `DatabaseManager.deleteRows`: bulk delete by IN-list, returning the
driver's `affectedRows`. -/
def deleteRows (st : DbState) (cid database table : String)
    (primaryKey : String × List String) : TraceR Nat :=
  withConn st cid fun h =>
  useQ h database fun _ =>
  let placeholders := joinComma (primaryKey.2.map (fun _ => "?"))
  seqQ h ("DELETE FROM `" ++ table ++ "` WHERE `" ++ primaryKey.1
          ++ "` IN (" ++ placeholders ++ ")") primaryKey.2 fun res =>
  retT res.affectedRows

/-- `DatabaseManager.truncateTable`. -/
def truncateTable (st : DbState) (cid database table : String) : TraceR Unit :=
  withConn st cid fun h =>
  useQ h database fun _ =>
  seqQ h ("TRUNCATE TABLE `" ++ table ++ "`") [] fun _ =>
  retT ()

/-- `DatabaseManager.getTableIndexes`: `SHOW INDEX FROM \`table\``. -/
def getTableIndexes (st : DbState) (cid database table : String) :
    TraceR (List Row) :=
  withConn st cid fun h =>
  useQ h database fun _ =>
  seqQ h ("SHOW INDEX FROM `" ++ table ++ "`") [] fun res =>
  retT res.rows

/-- The INFORMATION_SCHEMA query text of `getTableForeignKeys`
(the source's multi-line template literal, whitespace collapsed). -/
def foreignKeysSql : String :=
  "SELECT CONSTRAINT_NAME as name, COLUMN_NAME as column, "
  ++ "REFERENCED_TABLE_NAME as refTable, REFERENCED_COLUMN_NAME as refColumn "
  ++ "FROM INFORMATION_SCHEMA.KEY_COLUMN_USAGE "
  ++ "WHERE TABLE_SCHEMA = ? AND TABLE_NAME = ? AND REFERENCED_TABLE_NAME IS NOT NULL"

/-- `DatabaseManager.getTableForeignKeys`: a parameterized
INFORMATION_SCHEMA lookup (the one scoped read with no `USE`). -/
def getTableForeignKeys (st : DbState) (cid database table : String) :
    TraceR (List Row) :=
  withConn st cid fun h =>
  seqQ h foreignKeysSql [database, table] fun res =>
  retT res.rows

/-- The index descriptor of `addIndex`. -/
structure AddIndexSpec where
  name : String
  columns : List String
  type : String

/-- `DatabaseManager.addIndex`. -/
def addIndex (st : DbState) (cid database table : String)
    (index : AddIndexSpec) : TraceR Unit :=
  withConn st cid fun h =>
  useQ h database fun _ =>
  let cols := joinComma (index.columns.map (fun c => "`" ++ c ++ "`"))
  let sql :=
    if index.type = "UNIQUE" then
      "CREATE UNIQUE INDEX `" ++ index.name ++ "` ON `" ++ table ++ "` (" ++ cols ++ ")"
    else if index.type = "FULLTEXT" then
      "CREATE FULLTEXT INDEX `" ++ index.name ++ "` ON `" ++ table ++ "` (" ++ cols ++ ")"
    else
      "CREATE INDEX `" ++ index.name ++ "` ON `" ++ table ++ "` (" ++ cols ++ ")"
  seqQ h sql [] fun _ =>
  retT ()

/-- `DatabaseManager.dropIndex`. -/
def dropIndex (st : DbState) (cid database table indexName : String) :
    TraceR Unit :=
  withConn st cid fun h =>
  useQ h database fun _ =>
  seqQ h ("DROP INDEX `" ++ indexName ++ "` ON `" ++ table ++ "`") [] fun _ =>
  retT ()

/-- The foreign-key descriptor of `addForeignKey`. -/
structure FkSpec where
  name : String
  column : String
  refTable : String
  refColumn : String
  onDelete : Option String := none
  onUpdate : Option String := none

/-- `DatabaseManager.addForeignKey`. -/
def addForeignKey (st : DbState) (cid database table : String)
    (fk : FkSpec) : TraceR Unit :=
  withConn st cid fun h =>
  useQ h database fun _ =>
  let sql :=
    "ALTER TABLE `" ++ table ++ "` ADD CONSTRAINT `" ++ fk.name
    ++ "` FOREIGN KEY (`" ++ fk.column ++ "`) REFERENCES `" ++ fk.refTable
    ++ "`(`" ++ fk.refColumn ++ "`)"
    ++ (match fk.onDelete with
        | some a => if a ≠ "" then " ON DELETE " ++ a else ""
        | none => "")
    ++ (match fk.onUpdate with
        | some a => if a ≠ "" then " ON UPDATE " ++ a else ""
        | none => "")
  seqQ h sql [] fun _ =>
  retT ()

/-- `DatabaseManager.dropForeignKey`. -/
def dropForeignKey (st : DbState) (cid database table fkName : String) :
    TraceR Unit :=
  withConn st cid fun h =>
  useQ h database fun _ =>
  seqQ h ("ALTER TABLE `" ++ table ++ "` DROP FOREIGN KEY `" ++ fkName ++ "`")
      [] fun _ =>
  retT ()

/-- The `DROP PRIMARY KEY` statement of `modifyPrimaryKey`. -/
def dropPkSql (table : String) : String :=
  "ALTER TABLE `" ++ table ++ "` DROP PRIMARY KEY"

/-- The `ADD PRIMARY KEY` statement of `modifyPrimaryKey`. -/
def addPkSql (table : String) (columns : List String) : String :=
  "ALTER TABLE `" ++ table ++ "` ADD PRIMARY KEY ("
  ++ joinComma (columns.map (fun c => "`" ++ c ++ "`")) ++ ")"

/-- `DatabaseManager.modifyPrimaryKey`: best-effort `DROP PRIMARY KEY`
inside try/catch (its outcome is discarded), then `ADD PRIMARY KEY` only
when the column list is non-empty. -/
def modifyPrimaryKey (st : DbState) (cid database table : String)
    (columns : List String) : TraceR Unit :=
  withConn st cid fun h =>
  useQ h database fun _ =>
  let dropped := h.query (dropPkSql table) []
  let rest : TraceR Unit :=
    if columns.length > 0 then
      seqQ h (addPkSql table columns) [] fun _ => retT ()
    else retT ()
  match dropped with
  | _ => (rest.1, .query (dropPkSql table) :: rest.2)

end DatabaseManager

/-! ### Redis driver model and `RedisManager` -/

/-- A driver call issued by the key-value registry, for the call trace. -/
inductive RCall where
  | create
  | ping
  | quit
  | select (dbIndex : Nat)
  | keys (pattern : String)
  | typeOf (key : String)
  | get (key : String)
  | lrange (key : String)
  | smembers (key : String)
  | zrange (key : String)
  | hgetall (key : String)
  | setKey (key value : String)
  | del (key : String)
  | ttl (key : String)
  | call (cmd : String) (args : List String)
  | info
  | dbsize
deriving DecidableEq, Repr

/-- A live `ioredis` client, as an oracle.  `db` is the key set of the
currently selected logical database (the external server's state), through
which the `KEYS` command is modelled; every other command is an outcome
oracle. -/
structure RedisHandle where
  db : List String
  pingH : Except String String
  quitH : Except String Unit
  selectH : Nat → Except String Unit
  typeH : String → Except String String
  getH : String → Except String (Option String)
  lrangeH : String → Except String (List String)
  smembersH : String → Except String (List String)
  zrangeH : String → Except String (List String)
  hgetallH : String → Except String (List (String × String))
  setH : String → String → Except String Unit
  delH : String → Except String Nat
  ttlH : String → Except String Int
  callH : String → List String → Except String String
  infoH : Except String String
  dbsizeH : Except String Nat

/-- The external server's `KEYS pattern` on the selected database. -/
def RedisHandle.keysCmd (c : RedisHandle) (pattern : String) : List String :=
  c.db.filter (fun k => globMatch pattern.data k.data)

/-- The options object built for `new Redis(...)`. -/
structure RedisConnOpts where
  host : String
  port : Nat
  password : Option String
  db : Nat
deriving DecidableEq, Repr

/-- The `ioredis` module: constructing and establishing a client
(the handshake that `connect()`/the first `ping()` awaits). -/
structure RedisEnv where
  createClient : RedisConnOpts → Except String RedisHandle

/-- `RedisConfig` of `redisManager.ts`. -/
structure RedisConfig where
  host : Option String := none
  port : Option Nat := none
  password : Option String := none
  database : Option Nat := none
  name : Option String := none

/-- The options `RedisManager` builds (`host || 'localhost'`,
`port || 6379`, `password || undefined`, `db: database || 0`). -/
def redisOptsOf (config : RedisConfig) : RedisConnOpts :=
  { host := jsOrStr config.host "localhost"
    port := jsOrNat config.port 6379
    password := jsOrUndef config.password
    db := jsOrNat config.database 0 }

/-- One registry entry (`interface RedisConnection`). -/
structure RedisConn where
  id : String
  config : RedisConfig
  client : Option RedisHandle

/-- The key-value registry: `private connections: Map<string, RedisConnection>`. -/
abbrev RedisState := List (String × RedisConn)

/-- An operation outcome paired with its driver-call trace. -/
abbrev RTraceR (α : Type) := Except String α × List RCall

namespace RedisManager

/-- `RedisManager.getClient`: look up the session, throw
`Redis connection not found or closed` when absent or its client is null. -/
def getClient (st : RedisState) (cid : String) : Except String RedisHandle :=
  match mapGet st cid with
  | some conn =>
      match conn.client with
      | some c => .ok c
      | none => .error "Redis connection not found or closed"
  | none => .error "Redis connection not found or closed"

/-- Run a scoped operation body after `getClient`; a lookup failure issues
no driver call. -/
def withClient {α : Type} (st : RedisState) (cid : String)
    (k : RedisHandle → RTraceR α) : RTraceR α :=
  match getClient st cid with
  | .error e => (.error e, [])
  | .ok c => k c

/-- `RedisManager.testConnection`: lazy client, `connect()` (the handshake),
`ping()`, `quit()`; each step only runs when the previous one resolved. -/
def testConnection (env : RedisEnv) (config : RedisConfig) :
    Except String Bool × List RCall :=
  match env.createClient (redisOptsOf config) with
  | .error e => (.error e, [.create])
  | .ok c =>
      match c.pingH with
      | .error e => (.error e, [.create, .ping])
      | .ok _ =>
          match c.quitH with
          | .error e => (.error e, [.create, .ping, .quit])
          | .ok _ => (.ok true, [.create, .ping, .quit])

/-- `RedisManager.connect`: construct the client, await `ping()`, register
under the fresh id `newId` (the `uuidv4()` value); registers nothing on
failure. -/
def connect (env : RedisEnv) (config : RedisConfig) (newId : String)
    (st : RedisState) : (Except String String × List RCall) × RedisState :=
  match env.createClient (redisOptsOf config) with
  | .error e => ((.error e, [.create]), st)
  | .ok c =>
      match c.pingH with
      | .error e => ((.error e, [.create, .ping]), st)
      | .ok _ =>
          ((.ok newId, [.create, .ping]),
           mapSet st newId { id := newId, config := config, client := some c })

/-- `RedisManager.disconnect`: `quit()` and remove when present; a silent
no-op when the id is absent or the client is null. -/
def disconnect (st : RedisState) (cid : String) :
    (Except String Unit × List RCall) × RedisState :=
  match mapGet st cid with
  | some conn =>
      match conn.client with
      | some c =>
          match c.quitH with
          | .error e => ((.error e, [.quit]), st)
          | .ok _ => ((.ok (), [.quit]), mapDelete st cid)
      | none => ((.ok (), []), st)
  | none => ((.ok (), []), st)

/-- `RedisManager.getDatabases`: the fixed enumeration `db0` .. `db15`;
the source never looks the session up and issues no driver call. -/
def getDatabases (_st : RedisState) (_cid : String) : RTraceR (List String) :=
  ((.ok ((List.range 16).map (fun i => "db" ++ toString i))), [])

/-- `RedisManager.selectDatabase`: `client.select(dbIndex)`. -/
def selectDatabase (st : RedisState) (cid : String) (dbIndex : Nat) :
    RTraceR Unit :=
  withClient st cid fun c =>
  (c.selectH dbIndex, [.select dbIndex])

/-- `RedisManager.getKeys`: `client.keys(pattern)` then `keys.sort()`
(JS default ascending lexicographic sort). -/
def getKeys (st : RedisState) (cid : String) (pattern : String) :
    RTraceR (List String) :=
  withClient st cid fun c =>
  (.ok (List.insertionSort (· ≤ ·) (c.keysCmd pattern)), [.keys pattern])

/-- `RedisManager.getKeyType`: `client.type(key)`. -/
def getKeyType (st : RedisState) (cid key : String) : RTraceR String :=
  withClient st cid fun c =>
  (c.typeH key, [.typeOf key])

/-- The type-tagged payload `getValue` returns. -/
inductive RedisValue where
  | str (v : Option String)
  | list (v : List String)
  | set (v : List String)
  | zset (v : List String)
  | hash (v : List (String × String))
  | null
deriving DecidableEq, Repr

/-- The `{type, value}` object `getValue` returns. -/
structure TypedValue where
  type : String
  value : RedisValue
deriving DecidableEq, Repr

/-- `RedisManager.getValue`: dispatch on `client.type(key)`; an
unrecognized type tag yields a null payload, not an error. -/
def getValue (st : RedisState) (cid key : String) : RTraceR TypedValue :=
  withClient st cid fun c =>
  match c.typeH key with
  | .error e => (.error e, [.typeOf key])
  | .ok t =>
      if t = "string" then
        match c.getH key with
        | .error e => (.error e, [.typeOf key, .get key])
        | .ok v => (.ok { type := t, value := .str v }, [.typeOf key, .get key])
      else if t = "list" then
        match c.lrangeH key with
        | .error e => (.error e, [.typeOf key, .lrange key])
        | .ok v => (.ok { type := t, value := .list v }, [.typeOf key, .lrange key])
      else if t = "set" then
        match c.smembersH key with
        | .error e => (.error e, [.typeOf key, .smembers key])
        | .ok v => (.ok { type := t, value := .set v }, [.typeOf key, .smembers key])
      else if t = "zset" then
        match c.zrangeH key with
        | .error e => (.error e, [.typeOf key, .zrange key])
        | .ok v => (.ok { type := t, value := .zset v }, [.typeOf key, .zrange key])
      else if t = "hash" then
        match c.hgetallH key with
        | .error e => (.error e, [.typeOf key, .hgetall key])
        | .ok v => (.ok { type := t, value := .hash v }, [.typeOf key, .hgetall key])
      else
        (.ok { type := t, value := .null }, [.typeOf key])

/-- `RedisManager.setValue`: only the scalar (`string`) case writes; every
other declared type silently no-ops without a driver call. -/
def setValue (st : RedisState) (cid key value type : String) : RTraceR Unit :=
  withClient st cid fun c =>
  if type = "string" then
    (c.setH key value, [.setKey key value])
  else
    (.ok (), [])

/-- `RedisManager.deleteKey`: `client.del(key)`. -/
def deleteKey (st : RedisState) (cid key : String) : RTraceR Nat :=
  withClient st cid fun c =>
  (c.delH key, [.del key])

/-- `RedisManager.getTTL`: `client.ttl(key)`. -/
def getTTL (st : RedisState) (cid key : String) : RTraceR Int :=
  withClient st cid fun c =>
  (c.ttlH key, [.ttl key])

/-- The `{result, executionTime}` object `executeCommand` returns. -/
structure CommandOut where
  result : String
  executionTime : Nat
deriving DecidableEq, Repr

/-- The whitespace split of `executeCommand`
(`command.trim().split(/\s+/)`). -/
def splitCommand (command : String) : List String :=
  (command.trim.split (fun c => c.isWhitespace)).filter (fun s => s ≠ "")

/-- `RedisManager.executeCommand`: split the raw line into a lower-cased
command name and positional arguments, `client.call(cmd, ...args)`. -/
def executeCommand (st : RedisState) (cid command : String) :
    RTraceR CommandOut :=
  withClient st cid fun c =>
  let parts := splitCommand command
  let cmd := (parts.headD "").toLower
  let args := parts.tail
  match c.callH cmd args with
  | .error e => (.error e, [.call cmd args])
  | .ok r => (.ok { result := r, executionTime := 0 }, [.call cmd args])

/-- `RedisManager.getInfo`: `client.info()`. -/
def getInfo (st : RedisState) (cid : String) : RTraceR String :=
  withClient st cid fun c =>
  (c.infoH, [.info])

/-- `RedisManager.getDbSize`: `client.dbsize()`. -/
def getDbSize (st : RedisState) (cid : String) : RTraceR Nat :=
  withClient st cid fun c =>
  (c.dbsizeH, [.dbsize])

end RedisManager

/-! ### The command router (`ipcMain.handle` registrations in `main/index.ts`) -/

/-- A structured-clonable value crossing the process boundary. -/
inductive Value where
  | vBool (b : Bool)
  | vStr (s : String)
  | vInt (n : Int)
  | vList (l : List Value)
  | vObj (fields : List (String × Value))
  | vNull

/-- Encode a string list payload. -/
def encodeStrList (l : List String) : Value :=
  .vList (l.map .vStr)

/-- Encode one driver row. -/
def encodeRow (r : Row) : Value :=
  .vObj (r.map (fun p => (p.1, .vStr p.2)))

/-- Encode a row-list payload. -/
def encodeRows (rs : List Row) : Value :=
  .vList (rs.map encodeRow)

/-- Encode the `executeQuery` payload. -/
def encodeQueryOut (q : DatabaseManager.QueryOut) : Value :=
  .vObj [("columns", encodeStrList q.columns), ("rows", encodeRows q.rows),
         ("executionTime", .vInt q.executionTime)]

/-- Encode the `getTableData` payload. -/
def encodeTableDataOut (q : DatabaseManager.TableDataOut) : Value :=
  .vObj [("columns", encodeStrList q.columns), ("rows", encodeRows q.rows),
         ("totalCount", .vInt q.totalCount), ("executionTime", .vInt q.executionTime)]

/-- Encode a key-value payload variant. -/
def encodeRedisValue : RedisManager.RedisValue → Value
  | .str (some v) => .vStr v
  | .str none => .vNull
  | .list v => encodeStrList v
  | .set v => encodeStrList v
  | .zset v => encodeStrList v
  | .hash v => .vObj (v.map (fun p => (p.1, .vStr p.2)))
  | .null => .vNull

/-- Encode the `getValue` payload. -/
def encodeTypedValue (tv : RedisManager.TypedValue) : Value :=
  .vObj [("type", .vStr tv.type), ("value", encodeRedisValue tv.value)]

/-- Encode the `executeCommand` payload. -/
def encodeCommandOut (c : RedisManager.CommandOut) : Value :=
  .vObj [("result", .vStr c.result), ("executionTime", .vInt c.executionTime)]

/-- The uniform result envelope delivered to the presentation layer.
An absent field (`undefined` in JS) is `none`. -/
structure Envelope where
  success : Bool
  data : Option Value := none
  error : Option String := none
  connectionId : Option String := none

/-- The `try/catch` of every data-returning handler:
`{success:true, data}` or `{success:false, error:message}`. -/
def wrapData (r : Except String Value) : Envelope :=
  match r with
  | .ok v => { success := true, data := some v }
  | .error e => { success := false, error := some e }

/-- The `try/catch` of every void handler: `{success:true}` or
`{success:false, error:message}`. -/
def wrapVoid {α : Type} (r : Except String α) : Envelope :=
  match r with
  | .ok _ => { success := true }
  | .error e => { success := false, error := some e }

/-- The `try/catch` of the two connect handlers:
`{success:true, connectionId}` or `{success:false, error:message}`. -/
def wrapConnect (r : Except String String) : Envelope :=
  match r with
  | .ok cid => { success := true, connectionId := some cid }
  | .error e => { success := false, error := some e }

/-- One boundary operation with its arguments: the full catalog of
`ipcMain.handle` channels. -/
inductive Op where
  | dbTestConnection (config : DatabaseConfig)
  | dbConnect (config : DatabaseConfig)
  | dbDisconnect (cid : String)
  | dbGetDatabases (cid : String)
  | dbGetTables (cid database : String)
  | dbGetTableStructure (cid database table : String)
  | dbExecuteQuery (cid database query : String)
  | dbGetTableData (cid database table : String)
  | dbCreateTable (cid database tableName : String)
      (columns : List ColumnSpec) (indexes : List IndexSpec)
  | dbDropTable (cid database table : String)
  | dbGetTableColumns (cid database table : String)
  | dbUpdateRow (cid database table : String)
      (primaryKey : String × String) (updates : List (String × String))
  | dbDeleteRow (cid database table : String) (primaryKey : String × String)
  | dbAddColumn (cid database table : String) (column : DatabaseManager.SimpleColumn)
  | dbModifyColumn (cid database table oldName : String)
      (column : DatabaseManager.SimpleColumn)
  | dbDropColumn (cid database table columnName : String)
  | dbInsertRow (cid database table : String) (data : List (String × String))
  | dbDeleteRows (cid database table : String) (primaryKey : String × List String)
  | dbTruncateTable (cid database table : String)
  | dbGetTableIndexes (cid database table : String)
  | dbGetTableForeignKeys (cid database table : String)
  | dbAddIndex (cid database table : String) (index : DatabaseManager.AddIndexSpec)
  | dbDropIndex (cid database table indexName : String)
  | dbAddForeignKey (cid database table : String) (fk : DatabaseManager.FkSpec)
  | dbDropForeignKey (cid database table fkName : String)
  | dbModifyPrimaryKey (cid database table : String) (columns : List String)
  | redisTestConnection (config : RedisConfig)
  | redisConnect (config : RedisConfig)
  | redisDisconnect (cid : String)
  | redisGetDatabases (cid : String)
  | redisSelectDatabase (cid : String) (dbIndex : Nat)
  | redisGetKeys (cid pattern : String)
  | redisGetValue (cid key : String)
  | redisSetValue (cid key value type : String)
  | redisDeleteKey (cid key : String)
  | redisGetTTL (cid key : String)
  | redisExecuteCommand (cid command : String)
  | redisGetInfo (cid : String)
  | redisGetDbSize (cid : String)

/-- The two `connect` channels (the ones whose envelope carries
`connectionId`). -/
def Op.isConnectOp : Op → Bool
  | .dbConnect _ => true
  | .redisConnect _ => true
  | _ => false

/-- The channels whose handler returns a `data` payload on success (the
remaining handlers return a bare `{success:true}`, and the connect handlers
return `connectionId` instead). -/
def Op.hasDataPayload : Op → Bool
  | .dbTestConnection _ => true
  | .dbGetDatabases _ => true
  | .dbGetTables _ _ => true
  | .dbGetTableStructure _ _ _ => true
  | .dbExecuteQuery _ _ _ => true
  | .dbGetTableData _ _ _ => true
  | .dbGetTableColumns _ _ _ => true
  | .dbDeleteRows _ _ _ _ => true
  | .dbGetTableIndexes _ _ _ => true
  | .dbGetTableForeignKeys _ _ _ => true
  | .redisTestConnection _ => true
  | .redisGetDatabases _ => true
  | .redisGetKeys _ _ => true
  | .redisGetValue _ _ => true
  | .redisDeleteKey _ _ => true
  | .redisGetTTL _ _ => true
  | .redisExecuteCommand _ _ => true
  | .redisGetInfo _ => true
  | .redisGetDbSize _ => true
  | _ => false

/-- The four lifecycle channels that may touch a session registry. -/
def Op.isLifecycle : Op → Bool
  | .dbConnect _ => true
  | .dbDisconnect _ => true
  | .redisConnect _ => true
  | .redisDisconnect _ => true
  | _ => false

/-- The one process-wide state: both registries
(the module-level `dbManager` and `redisManager` instances). -/
structure SysState where
  db : DbState
  redis : RedisState

/-- The router's collaborators: both driver modules and the `uuidv4()`
value the next connect would use. -/
structure RouterEnv where
  myEnv : MySqlEnv
  redisEnv : RedisEnv
  freshId : String

/-- The command router: dispatch one boundary operation to its registry
method and wrap the outcome in the envelope, as each `ipcMain.handle`
registration does with its `try/catch`. -/
def route (env : RouterEnv) (st : SysState) : Op → Envelope × SysState
  | .dbTestConnection config =>
      (wrapData ((DatabaseManager.testConnection env.myEnv config).1.map .vBool), st)
  | .dbConnect config =>
      let r := DatabaseManager.connect env.myEnv config env.freshId st.db
      (wrapConnect r.1.1, { st with db := r.2 })
  | .dbDisconnect cid =>
      let r := DatabaseManager.disconnect st.db cid
      (wrapVoid r.1.1, { st with db := r.2 })
  | .dbGetDatabases cid =>
      (wrapData ((DatabaseManager.getDatabases st.db cid).1.map encodeStrList), st)
  | .dbGetTables cid database =>
      (wrapData ((DatabaseManager.getTables st.db cid database).1.map encodeStrList), st)
  | .dbGetTableStructure cid database table =>
      (wrapData ((DatabaseManager.getTableStructure st.db cid database table).1.map
        encodeRows), st)
  | .dbExecuteQuery cid database query =>
      (wrapData ((DatabaseManager.executeQuery st.db cid database query).1.map
        encodeQueryOut), st)
  | .dbGetTableData cid database table =>
      (wrapData ((DatabaseManager.getTableData st.db cid database table).1.map
        encodeTableDataOut), st)
  | .dbCreateTable cid database tableName columns indexes =>
      (wrapVoid (DatabaseManager.createTable st.db cid database tableName
        columns indexes).1, st)
  | .dbDropTable cid database table =>
      (wrapVoid (DatabaseManager.dropTable st.db cid database table).1, st)
  | .dbGetTableColumns cid database table =>
      (wrapData ((DatabaseManager.getTableColumns st.db cid database table).1.map
        encodeRows), st)
  | .dbUpdateRow cid database table primaryKey updates =>
      (wrapVoid (DatabaseManager.updateRow st.db cid database table
        primaryKey updates).1, st)
  | .dbDeleteRow cid database table primaryKey =>
      (wrapVoid (DatabaseManager.deleteRow st.db cid database table primaryKey).1, st)
  | .dbAddColumn cid database table column =>
      (wrapVoid (DatabaseManager.addColumn st.db cid database table column).1, st)
  | .dbModifyColumn cid database table oldName column =>
      (wrapVoid (DatabaseManager.modifyColumn st.db cid database table
        oldName column).1, st)
  | .dbDropColumn cid database table columnName =>
      (wrapVoid (DatabaseManager.dropColumn st.db cid database table columnName).1, st)
  | .dbInsertRow cid database table data =>
      (wrapVoid (DatabaseManager.insertRow st.db cid database table data).1, st)
  | .dbDeleteRows cid database table primaryKey =>
      (wrapData ((DatabaseManager.deleteRows st.db cid database table
        primaryKey).1.map (fun n => .vInt n)), st)
  | .dbTruncateTable cid database table =>
      (wrapVoid (DatabaseManager.truncateTable st.db cid database table).1, st)
  | .dbGetTableIndexes cid database table =>
      (wrapData ((DatabaseManager.getTableIndexes st.db cid database table).1.map
        encodeRows), st)
  | .dbGetTableForeignKeys cid database table =>
      (wrapData ((DatabaseManager.getTableForeignKeys st.db cid database table).1.map
        encodeRows), st)
  | .dbAddIndex cid database table index =>
      (wrapVoid (DatabaseManager.addIndex st.db cid database table index).1, st)
  | .dbDropIndex cid database table indexName =>
      (wrapVoid (DatabaseManager.dropIndex st.db cid database table indexName).1, st)
  | .dbAddForeignKey cid database table fk =>
      (wrapVoid (DatabaseManager.addForeignKey st.db cid database table fk).1, st)
  | .dbDropForeignKey cid database table fkName =>
      (wrapVoid (DatabaseManager.dropForeignKey st.db cid database table fkName).1, st)
  | .dbModifyPrimaryKey cid database table columns =>
      (wrapVoid (DatabaseManager.modifyPrimaryKey st.db cid database table
        columns).1, st)
  | .redisTestConnection config =>
      (wrapData ((RedisManager.testConnection env.redisEnv config).1.map .vBool), st)
  | .redisConnect config =>
      let r := RedisManager.connect env.redisEnv config env.freshId st.redis
      (wrapConnect r.1.1, { st with redis := r.2 })
  | .redisDisconnect cid =>
      let r := RedisManager.disconnect st.redis cid
      (wrapVoid r.1.1, { st with redis := r.2 })
  | .redisGetDatabases cid =>
      (wrapData ((RedisManager.getDatabases st.redis cid).1.map encodeStrList), st)
  | .redisSelectDatabase cid dbIndex =>
      (wrapVoid (RedisManager.selectDatabase st.redis cid dbIndex).1, st)
  | .redisGetKeys cid pattern =>
      (wrapData ((RedisManager.getKeys st.redis cid pattern).1.map encodeStrList), st)
  | .redisGetValue cid key =>
      (wrapData ((RedisManager.getValue st.redis cid key).1.map encodeTypedValue), st)
  | .redisSetValue cid key value type =>
      (wrapVoid (RedisManager.setValue st.redis cid key value type).1, st)
  | .redisDeleteKey cid key =>
      (wrapData ((RedisManager.deleteKey st.redis cid key).1.map
        (fun n => .vInt n)), st)
  | .redisGetTTL cid key =>
      (wrapData ((RedisManager.getTTL st.redis cid key).1.map
        (fun n => .vInt n)), st)
  | .redisExecuteCommand cid command =>
      (wrapData ((RedisManager.executeCommand st.redis cid command).1.map
        encodeCommandOut), st)
  | .redisGetInfo cid =>
      (wrapData ((RedisManager.getInfo st.redis cid).1.map .vStr), st)
  | .redisGetDbSize cid =>
      (wrapData ((RedisManager.getDbSize st.redis cid).1.map
        (fun n => .vInt n)), st)

/-! ### Specification predicates and concrete fixtures -/

/-- The envelope contract of §4.3: on success `{success:true, data:<payload>}`
(`connectionId` instead of `data` for the connect channels; a void channel's
payload is `undefined`, i.e. an absent `data` field); on any failure
`{success:false, error:<message>}` with no payload. -/
def EnvelopeOk (isConn hasData : Bool) (e : Envelope) : Prop :=
  (e.success = true ∧ e.error = none ∧
    (if isConn then ∃ c, e.connectionId = some c else e.connectionId = none) ∧
    (if hasData then ∃ v, e.data = some v else e.data = none)) ∨
  (e.success = false ∧ e.data = none ∧ e.connectionId = none ∧
    ∃ m, e.error = some m)

/-- A concrete two-row driver result, for witnesses. -/
def sampleQueryRes : QueryRes :=
  { rows := [[("id", "1")], [("id", "2")]], fields := some ["id"] }

/-- A concrete well-behaved MySQL handle, for witnesses. -/
def okHandle : MyHandle :=
  { query := fun _ _ => .ok sampleQueryRes, endConn := .ok () }

/-- A registry holding the single healthy session `s1`, for witnesses. -/
def sampleDbState : DbState :=
  [("s1", { id := "s1", config := { type := .mysql }, connection := some okHandle })]

/-- A concrete well-behaved Redis client over a three-key database,
for witnesses. -/
def okRedisHandle : RedisHandle :=
  { db := ["user:2", "b", "user:1"]
    pingH := .ok "PONG"
    quitH := .ok ()
    selectH := fun _ => .ok ()
    typeH := fun _ => .ok "string"
    getH := fun _ => .ok (some "v")
    lrangeH := fun _ => .ok []
    smembersH := fun _ => .ok []
    zrangeH := fun _ => .ok []
    hgetallH := fun _ => .ok []
    setH := fun _ _ => .ok ()
    delH := fun _ => .ok 1
    ttlH := fun _ => .ok (-1)
    callH := fun _ _ => .ok "OK"
    infoH := .ok "redis_version:7"
    dbsizeH := .ok 3 }

/-- A registry holding the single healthy key-value session `r1`. -/
def sampleRedisState : RedisState :=
  [("r1", { id := "r1", config := {}, client := some okRedisHandle })]

/-- A Redis module whose handshake succeeds but whose client fails `ping()`:
the probe scenario of the `test-connection` counterexample. -/
def pingFailEnv : RedisEnv :=
  { createClient := fun _ => .ok { okRedisHandle with pingH := .error "ping failed" } }

/-- A MySQL module that always hands out `okHandle`. -/
def okMySqlEnv : MySqlEnv :=
  { createConnection := fun _ => .ok okHandle }

/-- A Redis module that always hands out `okRedisHandle`. -/
def okRedisEnv : RedisEnv :=
  { createClient := fun _ => .ok okRedisHandle }

/-! ## Theorems -/

/-- `Map.set` then `Map.get` of the same key. -/
theorem mapGet_mapSet_self {α : Type} (m : List (String × α)) (k : String) (v : α) :
    mapGet (mapSet m k v) k = some v := by
  induction m with
  | nil => simp [mapSet, mapGet]
  | cons p rest ih =>
      by_cases h : p.1 = k
      · simp [mapSet, mapGet, h]
      · simp [mapSet, mapGet, h, ih]

/-- `Map.delete` then `Map.get` of the same key. -/
theorem mapGet_mapDelete_self {α : Type} (m : List (String × α)) (k : String) :
    mapGet (mapDelete m k) k = none := by
  induction m with
  | nil => simp [mapDelete, mapGet]
  | cons p rest ih =>
      by_cases h : p.1 = k
      · simpa [mapDelete, h] using ih
      · simpa [mapDelete, mapGet, h] using ih

/-- An absent session id makes `getConnection` throw. -/
theorem getConnection_absent (st : DbState) (cid : String)
    (h : mapGet st cid = none) :
    DatabaseManager.getConnection st cid = .error "Connection not found or closed" := by
  simp [DatabaseManager.getConnection, h]

/-- An absent session id fails every `withConn` body with no driver call. -/
theorem withConn_absent {α : Type} (st : DbState) (cid : String)
    (h : mapGet st cid = none) (k : MyHandle → TraceR α) :
    DatabaseManager.withConn st cid k =
      (.error "Connection not found or closed", []) := by
  simp [DatabaseManager.withConn, getConnection_absent st cid h]

/-- An absent session id makes `getClient` throw. -/
theorem getClient_absent (st : RedisState) (cid : String)
    (h : mapGet st cid = none) :
    RedisManager.getClient st cid = .error "Redis connection not found or closed" := by
  simp [RedisManager.getClient, h]

/-- An absent session id fails every `withClient` body with no driver call. -/
theorem withClient_absent {α : Type} (st : RedisState) (cid : String)
    (h : mapGet st cid = none) (k : RedisHandle → RTraceR α) :
    RedisManager.withClient st cid k =
      (.error "Redis connection not found or closed", []) := by
  simp [RedisManager.withClient, getClient_absent st cid h]

/-- C7: for every default value string passed to the `formatDefaultValue`
helper of `addColumn`/`modifyColumn` (those callers pass only non-empty
values), the emitted default is the input unquoted when its uppercasing
starts with one of the temporal/special keywords, the input unquoted when
it is a numeric literal, the literal `''` when the input is the
two-character empty-string literal, and the input wrapped in single quotes
otherwise. -/
theorem C7_format_default_value (dv : String) (hne : dv ≠ "") :
    (startsWithSpecial (strToUpper dv) = true → formatDefaultValue dv = dv) ∧
    (startsWithSpecial (strToUpper dv) = false → isNumericLiteral dv = true →
      formatDefaultValue dv = dv) ∧
    (startsWithSpecial (strToUpper dv) = false → isNumericLiteral dv = false →
      dv = "''" → formatDefaultValue dv = "''") ∧
    (startsWithSpecial (strToUpper dv) = false → isNumericLiteral dv = false →
      dv ≠ "''" → formatDefaultValue dv = "'" ++ dv ++ "'") := by
  refine ⟨?_, ?_, ?_, ?_⟩ <;> intros <;> simp [formatDefaultValue, hne, *]

/-- C7 witness: the generic string `abc` is quoted. -/
theorem C7_witness : formatDefaultValue "abc" = "'" ++ "abc" ++ "'" :=
  (C7_format_default_value "abc" (by decide)).2.2.2 (by decide) (by decide) (by decide)

/-- C8: in `createTable`, for every column carrying a default value, the
generated column definition contains the default clause, which emits the
literal tokens `NULL` and `CURRENT_TIMESTAMP` unquoted and quotes every
other default value as a string literal. -/
theorem C8_create_table_default (col : ColumnSpec) (dv : String)
    (hd : col.defaultValue = some dv) (hne : dv ≠ "") :
    (∃ pre post, createTableColumnDef col =
      pre ++ createTableDefaultClause dv ++ post) ∧
    (strToUpper dv = "NULL" → createTableDefaultClause dv = " DEFAULT NULL") ∧
    (strToUpper dv = "CURRENT_TIMESTAMP" →
      createTableDefaultClause dv = " DEFAULT CURRENT_TIMESTAMP") ∧
    (strToUpper dv ≠ "NULL" → strToUpper dv ≠ "CURRENT_TIMESTAMP" →
      createTableDefaultClause dv = " DEFAULT '" ++ dv ++ "'") := by
  refine ⟨?_, ?_, ?_, ?_⟩
  · refine ⟨"`" ++ col.name ++ "` " ++ col.type
      ++ (if col.unsigned then " UNSIGNED" else "")
      ++ (if !col.nullable then " NOT NULL" else "")
      ++ (if col.autoIncrement then " AUTO_INCREMENT" else ""),
      (match col.comment with
       | some c => if c ≠ "" then " COMMENT '" ++ c ++ "'" else ""
       | none => ""), ?_⟩
    simp [createTableColumnDef, hd, hne, String.append_assoc]
  · intro h
    simp [createTableDefaultClause, h]
  · intro h
    by_cases hn : strToUpper dv = "NULL"
    · rw [hn] at h
      exact absurd h (by decide)
    · simp [createTableDefaultClause, hn, h]
  · intro hn hc
    simp [createTableDefaultClause, hn, hc]

/-- C8 witness: a NULL default stays unquoted inside the generated
column definition. -/
theorem C8_witness :
    createTableDefaultClause "null" = " DEFAULT NULL" :=
  (C8_create_table_default
    { name := "c", type := "INT", nullable := true, defaultValue := some "null" }
    "null" rfl (by decide)).2.1 (by decide)

/-- C10: the result object of `getTableData` carries a `totalCount` field
that always equals the number of entries in its `rows` field. -/
theorem C10_total_count (st : DbState) (cid database table : String)
    (out : DatabaseManager.TableDataOut) (tr : List MyCall)
    (h : DatabaseManager.getTableData st cid database table = (.ok out, tr)) :
    out.totalCount = out.rows.length := by
  cases hg : DatabaseManager.getConnection st cid with
  | error e =>
      simp [DatabaseManager.getTableData, DatabaseManager.withConn, hg] at h
  | ok hh =>
    cases hq : hh.query (DatabaseManager.useSqlOf database) [] with
    | error e =>
        simp [DatabaseManager.getTableData, DatabaseManager.withConn,
              DatabaseManager.useQ, DatabaseManager.seqQ, hg, hq] at h
    | ok r1 =>
      cases hs : hh.query ("SELECT * FROM `" ++ table ++ "`") [] with
      | error e =>
          simp [DatabaseManager.getTableData, DatabaseManager.withConn,
                DatabaseManager.useQ, DatabaseManager.seqQ, hg, hq, hs] at h
      | ok r2 =>
          simp [DatabaseManager.getTableData, DatabaseManager.withConn,
                DatabaseManager.useQ, DatabaseManager.seqQ,
                DatabaseManager.retT, hg, hq, hs] at h
          obtain ⟨h1, -⟩ := h
          subst h1
          rfl

/-- C10 witness: two rows give `totalCount = 2 = rows.length`. -/
theorem C10_witness :
    (DatabaseManager.TableDataOut.mk ["id"] sampleQueryRes.rows 2 0).totalCount =
      (DatabaseManager.TableDataOut.mk ["id"] sampleQueryRes.rows 2 0).rows.length :=
  C10_total_count sampleDbState "s1" "d" "t" _ _ rfl

/-- C4: `modifyPrimaryKey` always attempts the `DROP PRIMARY KEY` statement
and swallows its outcome (the trace and result are those of the remaining
steps whatever the drop returned), issues `ADD PRIMARY KEY` if and only if
the column list is non-empty, succeeds with an empty column list, and in
general succeeds exactly when the column list is empty or the ADD statement
is accepted. -/
theorem C4_modify_primary_key (st : DbState) (cid database table : String)
    (columns : List String) (h : MyHandle)
    (hc : DatabaseManager.getConnection st cid = .ok h)
    (qres : QueryRes)
    (hu : h.query (DatabaseManager.useSqlOf database) [] = .ok qres) :
    (DatabaseManager.modifyPrimaryKey st cid database table columns).2 =
      [.query (DatabaseManager.useSqlOf database),
       .query (DatabaseManager.dropPkSql table)]
      ++ (if columns.length > 0
          then [MyCall.query (DatabaseManager.addPkSql table columns)] else []) ∧
    (columns.length = 0 →
      (DatabaseManager.modifyPrimaryKey st cid database table columns).1 = .ok ()) ∧
    ((∃ u, (DatabaseManager.modifyPrimaryKey st cid database table columns).1 = .ok u)
      ↔ (columns.length = 0 ∨
          ∃ q, h.query (DatabaseManager.addPkSql table columns) [] = .ok q)) := by
  by_cases hl : columns.length = 0
  · refine ⟨?_, ?_, ?_⟩ <;>
      simp [DatabaseManager.modifyPrimaryKey, DatabaseManager.withConn,
            DatabaseManager.useQ, DatabaseManager.seqQ, DatabaseManager.retT,
            hc, hu, hl]
  · cases ha : h.query (DatabaseManager.addPkSql table columns) [] with
    | error e =>
        refine ⟨?_, ?_, ?_⟩ <;>
          simp [DatabaseManager.modifyPrimaryKey, DatabaseManager.withConn,
                DatabaseManager.useQ, DatabaseManager.seqQ, DatabaseManager.retT,
                hc, hu, hl, ha, Nat.pos_of_ne_zero]
    | ok q =>
        refine ⟨?_, ?_, ?_⟩ <;>
          simp [DatabaseManager.modifyPrimaryKey, DatabaseManager.withConn,
                DatabaseManager.useQ, DatabaseManager.seqQ, DatabaseManager.retT,
                hc, hu, hl, ha, Nat.pos_of_ne_zero]

/-- C4 witness: an empty column list leaves the table with no primary key
and the operation succeeds. -/
theorem C4_witness :
    (DatabaseManager.modifyPrimaryKey sampleDbState "s1" "d" "t" []).1 = .ok () :=
  (C4_modify_primary_key sampleDbState "s1" "d" "t" [] okHandle rfl
    sampleQueryRes rfl).2.1 rfl

/-- C5: for every valid config (one whose handshake and close succeed),
`connect` followed immediately by `disconnect` leaves the registry with no
entry for the returned session id, and a second `disconnect` with the same
id is a no-op that does not raise; for both the relational and the
key-value registry. -/
theorem C5_connect_disconnect_idempotent
    (menv : MySqlEnv) (renv : RedisEnv) (cfg : DatabaseConfig)
    (rcfg : RedisConfig) (newId rid : String) (st : DbState) (rst : RedisState)
    (h : MyHandle) (c : RedisHandle)
    (htype : cfg.type = .mysql)
    (hmy : menv.createConnection (connOptsOf cfg) = .ok h)
    (hend : h.endConn = .ok ())
    (hrc : renv.createClient (redisOptsOf rcfg) = .ok c)
    (hping : ∃ p, c.pingH = .ok p)
    (hquit : c.quitH = .ok ()) :
    ((DatabaseManager.connect menv cfg newId st).1.1 = .ok newId ∧
     (DatabaseManager.disconnect (DatabaseManager.connect menv cfg newId st).2
        newId).1.1 = .ok () ∧
     mapGet (DatabaseManager.disconnect (DatabaseManager.connect menv cfg newId st).2
        newId).2 newId = none ∧
     DatabaseManager.disconnect
        (DatabaseManager.disconnect (DatabaseManager.connect menv cfg newId st).2
          newId).2 newId =
       ((.ok (), []),
        (DatabaseManager.disconnect (DatabaseManager.connect menv cfg newId st).2
          newId).2)) ∧
    ((RedisManager.connect renv rcfg rid rst).1.1 = .ok rid ∧
     (RedisManager.disconnect (RedisManager.connect renv rcfg rid rst).2
        rid).1.1 = .ok () ∧
     mapGet (RedisManager.disconnect (RedisManager.connect renv rcfg rid rst).2
        rid).2 rid = none ∧
     RedisManager.disconnect
        (RedisManager.disconnect (RedisManager.connect renv rcfg rid rst).2
          rid).2 rid =
       ((.ok (), []),
        (RedisManager.disconnect (RedisManager.connect renv rcfg rid rst).2
          rid).2)) := by
  obtain ⟨p, hping⟩ := hping
  have hdbState : (DatabaseManager.connect menv cfg newId st).2 =
      mapSet st newId { id := newId, config := cfg, connection := some h } := by
    cases cfg with
    | mk t host port user password database filename name =>
        cases htype
        simp [DatabaseManager.connect, hmy]
  have hdGet : mapGet (DatabaseManager.connect menv cfg newId st).2 newId =
      some { id := newId, config := cfg, connection := some h } := by
    rw [hdbState]; exact mapGet_mapSet_self st newId _
  have hdisc : DatabaseManager.disconnect (DatabaseManager.connect menv cfg newId st).2
      newId =
      ((.ok (), [.endConn]),
       mapDelete (DatabaseManager.connect menv cfg newId st).2 newId) := by
    simp [DatabaseManager.disconnect, hdGet, hend]
  have hdGone : mapGet (DatabaseManager.disconnect
      (DatabaseManager.connect menv cfg newId st).2 newId).2 newId = none := by
    rw [hdisc]; exact mapGet_mapDelete_self _ newId
  have hrState : (RedisManager.connect renv rcfg rid rst).2 =
      mapSet rst rid { id := rid, config := rcfg, client := some c } := by
    simp [RedisManager.connect, hrc, hping]
  have hrGet : mapGet (RedisManager.connect renv rcfg rid rst).2 rid =
      some { id := rid, config := rcfg, client := some c } := by
    rw [hrState]; exact mapGet_mapSet_self rst rid _
  have hrdisc : RedisManager.disconnect (RedisManager.connect renv rcfg rid rst).2
      rid =
      ((.ok (), [.quit]),
       mapDelete (RedisManager.connect renv rcfg rid rst).2 rid) := by
    simp [RedisManager.disconnect, hrGet, hquit]
  have hrGone : mapGet (RedisManager.disconnect
      (RedisManager.connect renv rcfg rid rst).2 rid).2 rid = none := by
    rw [hrdisc]; exact mapGet_mapDelete_self _ rid
  refine ⟨⟨?_, ?_, hdGone, ?_⟩, ⟨?_, ?_, hrGone, ?_⟩⟩
  · cases cfg with
    | mk t host port user password database filename name =>
        cases htype
        simp [DatabaseManager.connect, hmy]
  · rw [hdisc]
  · rw [hdisc]
    simp [DatabaseManager.disconnect, mapGet_mapDelete_self]
  · simp [RedisManager.connect, hrc, hping]
  · rw [hrdisc]
  · rw [hrdisc]
    simp [RedisManager.disconnect, mapGet_mapDelete_self]

/-- C5 witness: the concrete well-behaved modules round a session through
connect, disconnect, disconnect. -/
theorem C5_witness :
    mapGet (DatabaseManager.disconnect
      (DatabaseManager.connect okMySqlEnv { type := .mysql } "fresh" []).2
      "fresh").2 "fresh" = none :=
  (C5_connect_disconnect_idempotent okMySqlEnv okRedisEnv { type := .mysql } {}
    "fresh" "rfresh" [] [] okHandle okRedisHandle rfl rfl rfl rfl
    ⟨"PONG", rfl⟩ rfl).1.2.2.1

/-- C2 counterexample: `RedisManager.getDatabases` takes a session id and is
neither `connect` nor `test-connection`, yet with an id absent from the
registry it succeeds (returning the fixed 16-database enumeration with no
driver call) instead of failing with a session-not-found error. -/
theorem C2_counterexample :
    mapGet ([] : RedisState) "gone" = none ∧
    ∃ l, RedisManager.getDatabases ([] : RedisState) "gone" = (.ok l, []) :=
  ⟨rfl, ⟨_, rfl⟩⟩

/-- C2 (amended): for every scoped operation other than `connect`,
`test-connection`, `disconnect` and the key-value `getDatabases`, an id
absent from the registry fails with the session-not-found error before any
driver call is attempted (the call trace is empty). -/
theorem C2_absent_session_fails_first (dbSt : DbState) (rSt : RedisState)
    (cid : String) (hdb : mapGet dbSt cid = none) (hr : mapGet rSt cid = none) :
    (DatabaseManager.getDatabases dbSt cid =
      (.error "Connection not found or closed", [])) ∧
    (∀ db, DatabaseManager.getTables dbSt cid db =
      (.error "Connection not found or closed", [])) ∧
    (∀ db t, DatabaseManager.getTableStructure dbSt cid db t =
      (.error "Connection not found or closed", [])) ∧
    (∀ db q, DatabaseManager.executeQuery dbSt cid db q =
      (.error "Connection not found or closed", [])) ∧
    (∀ db t, DatabaseManager.getTableData dbSt cid db t =
      (.error "Connection not found or closed", [])) ∧
    (∀ db t cols idxs, DatabaseManager.createTable dbSt cid db t cols idxs =
      (.error "Connection not found or closed", [])) ∧
    (∀ db t, DatabaseManager.dropTable dbSt cid db t =
      (.error "Connection not found or closed", [])) ∧
    (∀ db t, DatabaseManager.getTableColumns dbSt cid db t =
      (.error "Connection not found or closed", [])) ∧
    (∀ db t pk ups, DatabaseManager.updateRow dbSt cid db t pk ups =
      (.error "Connection not found or closed", [])) ∧
    (∀ db t pk, DatabaseManager.deleteRow dbSt cid db t pk =
      (.error "Connection not found or closed", [])) ∧
    (∀ db t col, DatabaseManager.addColumn dbSt cid db t col =
      (.error "Connection not found or closed", [])) ∧
    (∀ db t old col, DatabaseManager.modifyColumn dbSt cid db t old col =
      (.error "Connection not found or closed", [])) ∧
    (∀ db t cn, DatabaseManager.dropColumn dbSt cid db t cn =
      (.error "Connection not found or closed", [])) ∧
    (∀ db t data, DatabaseManager.insertRow dbSt cid db t data =
      (.error "Connection not found or closed", [])) ∧
    (∀ db t pk, DatabaseManager.deleteRows dbSt cid db t pk =
      (.error "Connection not found or closed", [])) ∧
    (∀ db t, DatabaseManager.truncateTable dbSt cid db t =
      (.error "Connection not found or closed", [])) ∧
    (∀ db t, DatabaseManager.getTableIndexes dbSt cid db t =
      (.error "Connection not found or closed", [])) ∧
    (∀ db t, DatabaseManager.getTableForeignKeys dbSt cid db t =
      (.error "Connection not found or closed", [])) ∧
    (∀ db t idx, DatabaseManager.addIndex dbSt cid db t idx =
      (.error "Connection not found or closed", [])) ∧
    (∀ db t iname, DatabaseManager.dropIndex dbSt cid db t iname =
      (.error "Connection not found or closed", [])) ∧
    (∀ db t fk, DatabaseManager.addForeignKey dbSt cid db t fk =
      (.error "Connection not found or closed", [])) ∧
    (∀ db t fkn, DatabaseManager.dropForeignKey dbSt cid db t fkn =
      (.error "Connection not found or closed", [])) ∧
    (∀ db t cols, DatabaseManager.modifyPrimaryKey dbSt cid db t cols =
      (.error "Connection not found or closed", [])) ∧
    (∀ i, RedisManager.selectDatabase rSt cid i =
      (.error "Redis connection not found or closed", [])) ∧
    (∀ pat, RedisManager.getKeys rSt cid pat =
      (.error "Redis connection not found or closed", [])) ∧
    (∀ k, RedisManager.getKeyType rSt cid k =
      (.error "Redis connection not found or closed", [])) ∧
    (∀ k, RedisManager.getValue rSt cid k =
      (.error "Redis connection not found or closed", [])) ∧
    (∀ k v ty, RedisManager.setValue rSt cid k v ty =
      (.error "Redis connection not found or closed", [])) ∧
    (∀ k, RedisManager.deleteKey rSt cid k =
      (.error "Redis connection not found or closed", [])) ∧
    (∀ k, RedisManager.getTTL rSt cid k =
      (.error "Redis connection not found or closed", [])) ∧
    (∀ cmd, RedisManager.executeCommand rSt cid cmd =
      (.error "Redis connection not found or closed", [])) ∧
    (RedisManager.getInfo rSt cid =
      (.error "Redis connection not found or closed", [])) ∧
    (RedisManager.getDbSize rSt cid =
      (.error "Redis connection not found or closed", [])) := by
  refine ⟨?_, ?_, ?_, ?_, ?_, ?_, ?_, ?_, ?_, ?_, ?_, ?_, ?_, ?_, ?_, ?_, ?_,
    ?_, ?_, ?_, ?_, ?_, ?_, ?_, ?_, ?_, ?_, ?_, ?_, ?_, ?_, ?_, ?_⟩ <;>
    intros <;>
    first
      | exact withConn_absent _ _ hdb _
      | exact withClient_absent _ _ hr _

/-- C2 witness: with both registries empty, `getTables` on an unknown id
fails with the session-not-found error and an empty call trace. -/
theorem C2_witness :
    DatabaseManager.getTables ([] : DbState) "gone" "d" =
      (.error "Connection not found or closed", []) :=
  (C2_absent_session_fails_first [] [] "gone" rfl rfl).2.1 "d"

/-- C3 counterexample: with a key-value probe whose handshake succeeds but
whose `ping()` rejects, `testConnection` fails without ever issuing the
closing `quit()` — the probe connection is not closed afterward, against
the claim's "always closes the probe connection regardless of outcome". -/
theorem C3_counterexample :
    RedisManager.testConnection pingFailEnv {} =
      (.error "ping failed", [RCall.create, RCall.ping]) ∧
    RCall.quit ∉ (RedisManager.testConnection pingFailEnv {}).2 := by
  have h : RedisManager.testConnection pingFailEnv {} =
      (.error "ping failed", [RCall.create, RCall.ping]) := rfl
  exact ⟨h, by rw [h]; decide⟩

/-- C3 (amended): `test-connection` succeeds exactly when every probe step
completes — the handshake and the close for the relational registry; the
handshake, the ping and the close for the key-value registry.  The closing
call is attempted exactly when all steps before it succeeded (a failure
earlier in the probe leaves the close unattempted).  No session is ever
registered: the router state is unchanged by both channels. -/
theorem C3_test_connection_probe (env : RouterEnv) (st : SysState)
    (cfg : DatabaseConfig) (rcfg : RedisConfig)
    (htype : cfg.type = .mysql) :
    ((∃ b, (DatabaseManager.testConnection env.myEnv cfg).1 = .ok b) ↔
      (∃ h, env.myEnv.createConnection (connOptsOf cfg) = .ok h ∧
        h.endConn = .ok ())) ∧
    (MyCall.endConn ∈ (DatabaseManager.testConnection env.myEnv cfg).2 ↔
      ∃ h, env.myEnv.createConnection (connOptsOf cfg) = .ok h) ∧
    ((∃ b, (RedisManager.testConnection env.redisEnv rcfg).1 = .ok b) ↔
      (∃ c, env.redisEnv.createClient (redisOptsOf rcfg) = .ok c ∧
        (∃ p, c.pingH = .ok p) ∧ c.quitH = .ok ())) ∧
    (RCall.quit ∈ (RedisManager.testConnection env.redisEnv rcfg).2 ↔
      ∃ c, env.redisEnv.createClient (redisOptsOf rcfg) = .ok c ∧
        ∃ p, c.pingH = .ok p) ∧
    (route env st (.dbTestConnection cfg)).2 = st ∧
    (route env st (.redisTestConnection rcfg)).2 = st := by
  obtain ⟨t, host, port, user, password, database, filename, name⟩ := cfg
  cases htype
  refine ⟨?_, ?_, ?_, ?_, rfl, rfl⟩
  · cases hc : env.myEnv.createConnection (connOptsOf
        { type := .mysql, host := host, port := port, user := user,
          password := password, database := database, filename := filename,
          name := name }) with
    | error e => simp [DatabaseManager.testConnection, hc]
    | ok h =>
        cases he : h.endConn with
        | error e => simp [DatabaseManager.testConnection, hc, he]
        | ok u => simp [DatabaseManager.testConnection, hc, he]
  · cases hc : env.myEnv.createConnection (connOptsOf
        { type := .mysql, host := host, port := port, user := user,
          password := password, database := database, filename := filename,
          name := name }) with
    | error e => simp [DatabaseManager.testConnection, hc]
    | ok h =>
        cases he : h.endConn with
        | error e => simp [DatabaseManager.testConnection, hc, he]
        | ok u => simp [DatabaseManager.testConnection, hc, he]
  · cases hc : env.redisEnv.createClient (redisOptsOf rcfg) with
    | error e => simp [RedisManager.testConnection, hc]
    | ok c =>
        cases hp : c.pingH with
        | error e => simp [RedisManager.testConnection, hc, hp]
        | ok p =>
            cases hq : c.quitH with
            | error e => simp [RedisManager.testConnection, hc, hp, hq]
            | ok u => simp [RedisManager.testConnection, hc, hp, hq]
  · cases hc : env.redisEnv.createClient (redisOptsOf rcfg) with
    | error e => simp [RedisManager.testConnection, hc]
    | ok c =>
        cases hp : c.pingH with
        | error e => simp [RedisManager.testConnection, hc, hp]
        | ok p =>
            cases hq : c.quitH with
            | error e => simp [RedisManager.testConnection, hc, hp, hq]
            | ok u => simp [RedisManager.testConnection, hc, hp, hq]

/-- C3 witness: the well-behaved probe succeeds and its trace contains the
closing call. -/
theorem C3_witness :
    MyCall.endConn ∈ (DatabaseManager.testConnection okMySqlEnv
      { type := .mysql }).2 :=
  (C3_test_connection_probe
    { myEnv := okMySqlEnv, redisEnv := okRedisEnv, freshId := "f" }
    { db := [], redis := [] } { type := .mysql } {} rfl).2.1.mpr
    ⟨okHandle, rfl⟩

/-- The all-matching pattern: `*` accepts every string. -/
theorem globMatch_star (s : List Char) : globMatch ['*'] s = true := by
  have he : globMatch ['*'] s =
      (List.range (s.length + 1)).any (fun i => globMatch [] (s.drop i)) := by
    simp [globMatch]
  rw [he, List.any_eq_true]
  refine ⟨s.length, List.mem_range.mpr (Nat.lt_succ_self _), ?_⟩
  simp [globMatch]

/-- A literal prefix followed by `*`: a match forces the literal prefix. -/
theorem globMatch_literal_star (lit : List Char) (s : List Char)
    (hno : ∀ ch ∈ lit, ch ≠ '*' ∧ ch ≠ '?')
    (h : globMatch (lit ++ ['*']) s = true) : lit <+: s := by
  induction lit generalizing s with
  | nil => exact List.nil_prefix
  | cons p ps ih =>
      have hp := hno p (List.mem_cons_self p ps)
      cases s with
      | nil => simp [globMatch, hp.1] at h
      | cons c s' =>
          simp only [List.cons_append, globMatch, hp.1, if_false,
            Bool.and_eq_true, Bool.or_eq_true, decide_eq_true_eq] at h
          obtain ⟨hpc, h2⟩ := h
          have : p = c := by
            rcases hpc with hq | he
            · exact absurd hq hp.2
            · exact he
          subst this
          obtain ⟨t, ht⟩ := ih s' (fun ch hl => hno ch (List.mem_cons_of_mem p hl)) h2
          exact ⟨t, by rw [List.cons_append, ht]⟩

/-- C6: for every registered session and pattern, `getKeys` returns the
keys sorted ascending lexicographically; with pattern `*` it returns every
key present in the currently selected logical database, and with pattern
`user:*` every returned key starts with `user:`. -/
theorem C6_get_keys (st : RedisState) (cid : String) (c : RedisHandle)
    (hc : RedisManager.getClient st cid = .ok c) (pattern : String) :
    ∃ res, RedisManager.getKeys st cid pattern = (.ok res, [RCall.keys pattern]) ∧
      res.Sorted (· ≤ ·) ∧
      (pattern = "*" → ∀ k, k ∈ res ↔ k ∈ c.db) ∧
      (pattern = "user:*" → ∀ k ∈ res, "user:".data <+: k.data) := by
  refine ⟨List.insertionSort (· ≤ ·) (c.keysCmd pattern), ?_, ?_, ?_, ?_⟩
  · simp [RedisManager.getKeys, RedisManager.withClient, hc]
  · exact List.sorted_insertionSort _ _
  · intro hp k
    subst hp
    rw [(List.perm_insertionSort _ _).mem_iff]
    simp [RedisHandle.keysCmd, globMatch_star]
  · intro hp k hk
    subst hp
    rw [(List.perm_insertionSort _ _).mem_iff] at hk
    simp only [RedisHandle.keysCmd, List.mem_filter] at hk
    exact globMatch_literal_star "user:".data k.data (by decide) hk.2

/-- C6 witness: the concrete three-key database under pattern `user:*`. -/
theorem C6_witness :
    ∃ res, RedisManager.getKeys sampleRedisState "r1" "user:*" =
        (.ok res, [RCall.keys "user:*"]) ∧
      res.Sorted (· ≤ ·) ∧
      ("user:*" = "*" → ∀ k, k ∈ res ↔ k ∈ okRedisHandle.db) ∧
      ("user:*" = "user:*" → ∀ k ∈ res, "user:".data <+: k.data) :=
  C6_get_keys sampleRedisState "r1" okRedisHandle rfl "user:*"

/-- A data handler's try/catch always produces a well-formed envelope. -/
theorem wrapData_envelopeOk (r : Except String Value) :
    EnvelopeOk false true (wrapData r) := by
  cases r <;> simp [wrapData, EnvelopeOk]

/-- A void handler's try/catch always produces a well-formed envelope. -/
theorem wrapVoid_envelopeOk {α : Type} (r : Except String α) :
    EnvelopeOk false false (wrapVoid r) := by
  cases r <;> simp [wrapVoid, EnvelopeOk]

/-- A connect handler's try/catch always produces a well-formed envelope
carrying the connection id. -/
theorem wrapConnect_envelopeOk (r : Except String String) :
    EnvelopeOk true false (wrapConnect r) := by
  cases r <;> simp [wrapConnect, EnvelopeOk]

/-- C1: every boundary operation dispatched by the router returns, on
success, `{success:true, data:<payload>}` — the payload present exactly for
the data-returning channels, with `connectionId` instead for the two
connect channels — and on any raised failure `{success:false,
error:<message>}`; the router is total — no exception crosses the boundary
unwrapped. -/
theorem C1_router_envelope (env : RouterEnv) (st : SysState) (op : Op) :
    EnvelopeOk op.isConnectOp op.hasDataPayload (route env st op).1 := by
  cases op <;>
    simp only [route, Op.isConnectOp, Op.hasDataPayload] <;>
    first
      | exact wrapData_envelopeOk _
      | exact wrapVoid_envelopeOk _
      | exact wrapConnect_envelopeOk _

/-- C9: for every registry operation other than the connect and disconnect
channels, the router leaves both session registries unchanged whether the
operation succeeds or fails; any failed call leaves them unchanged too;
insertion happens only on a successful connect (exactly the fresh id) and
removal only in disconnect (exactly the given id). -/
theorem C9_registry_frame (env : RouterEnv) (st : SysState) (op : Op) :
    (op.isLifecycle = false → (route env st op).2 = st) ∧
    ((route env st op).1.success = false → (route env st op).2 = st) ∧
    (∀ cfg, op = .dbConnect cfg →
      (route env st op).2.redis = st.redis ∧
      ((route env st op).2.db = st.db ∨
        ∃ h : MyHandle, (route env st op).2.db =
          mapSet st.db env.freshId
            { id := env.freshId, config := cfg, connection := some h })) ∧
    (∀ rcfg, op = .redisConnect rcfg →
      (route env st op).2.db = st.db ∧
      ((route env st op).2.redis = st.redis ∨
        ∃ c : RedisHandle, (route env st op).2.redis =
          mapSet st.redis env.freshId
            { id := env.freshId, config := rcfg, client := some c })) ∧
    (∀ cid, op = .dbDisconnect cid →
      (route env st op).2.redis = st.redis ∧
      ((route env st op).2.db = st.db ∨
        (route env st op).2.db = mapDelete st.db cid)) ∧
    (∀ cid, op = .redisDisconnect cid →
      (route env st op).2.db = st.db ∧
      ((route env st op).2.redis = st.redis ∨
        (route env st op).2.redis = mapDelete st.redis cid)) := by
  cases op with
  | dbConnect cfg =>
      refine ⟨by simp [Op.isLifecycle], ?_, ?_, by simp, by simp, by simp⟩
      · intro hfail
        cases cfg with
        | mk t host port user password database filename name =>
            cases t with
            | mysql =>
                cases hc : env.myEnv.createConnection (connOptsOf
                    { type := .mysql, host := host, port := port, user := user,
                      password := password, database := database,
                      filename := filename, name := name }) with
                | error e => simp [route, DatabaseManager.connect, hc]
                | ok h =>
                    simp [route, DatabaseManager.connect, hc, wrapConnect]
                      at hfail
            | postgresql => simp [route, DatabaseManager.connect]
            | sqlite => simp [route, DatabaseManager.connect]
      · intro cfg' hco2
        injection hco2 with hcc
        subst hcc
        refine ⟨by simp [route], ?_⟩
        cases cfg with
        | mk t host port user password database filename name =>
            cases t with
            | mysql =>
                cases hc : env.myEnv.createConnection (connOptsOf
                    { type := .mysql, host := host, port := port, user := user,
                      password := password, database := database,
                      filename := filename, name := name }) with
                | error e => exact .inl (by simp [route, DatabaseManager.connect, hc])
                | ok h =>
                    exact .inr ⟨h, by simp [route, DatabaseManager.connect, hc]⟩
            | postgresql => exact .inl (by simp [route, DatabaseManager.connect])
            | sqlite => exact .inl (by simp [route, DatabaseManager.connect])
  | redisConnect rcfg =>
      refine ⟨by simp [Op.isLifecycle], ?_, by simp, ?_, by simp, by simp⟩
      · intro hfail
        cases hc : env.redisEnv.createClient (redisOptsOf rcfg) with
        | error e => simp [route, RedisManager.connect, hc]
        | ok c =>
            cases hp : c.pingH with
            | error e => simp [route, RedisManager.connect, hc, hp]
            | ok p =>
                simp [route, RedisManager.connect, hc, hp, wrapConnect] at hfail
      · intro rcfg' hco2
        injection hco2 with hcc
        subst hcc
        refine ⟨by simp [route], ?_⟩
        cases hc : env.redisEnv.createClient (redisOptsOf rcfg) with
        | error e => exact .inl (by simp [route, RedisManager.connect, hc])
        | ok c =>
            cases hp : c.pingH with
            | error e => exact .inl (by simp [route, RedisManager.connect, hc, hp])
            | ok p =>
                exact .inr ⟨c, by simp [route, RedisManager.connect, hc, hp]⟩
  | dbDisconnect cid =>
      refine ⟨by simp [Op.isLifecycle], ?_, by simp, by simp, ?_, by simp⟩
      · intro hfail
        cases hg : mapGet st.db cid with
        | none => simp [route, DatabaseManager.disconnect, hg]
        | some conn =>
            cases hco : conn.connection with
            | none => simp [route, DatabaseManager.disconnect, hg, hco]
            | some h =>
                cases he : h.endConn with
                | error e => simp [route, DatabaseManager.disconnect, hg, hco, he]
                | ok u =>
                    simp [route, DatabaseManager.disconnect, hg, hco, he,
                      wrapVoid] at hfail
      · intro cid' hco2
        injection hco2 with hcc
        subst hcc
        refine ⟨by simp [route], ?_⟩
        cases hg : mapGet st.db cid with
        | none => exact .inl (by simp [route, DatabaseManager.disconnect, hg])
        | some conn =>
            cases hco : conn.connection with
            | none =>
                exact .inl (by simp [route, DatabaseManager.disconnect, hg, hco])
            | some h =>
                cases he : h.endConn with
                | error e =>
                    exact .inl
                      (by simp [route, DatabaseManager.disconnect, hg, hco, he])
                | ok u =>
                    exact .inr
                      (by simp [route, DatabaseManager.disconnect, hg, hco, he])
  | redisDisconnect cid =>
      refine ⟨by simp [Op.isLifecycle], ?_, by simp, by simp, by simp, ?_⟩
      · intro hfail
        cases hg : mapGet st.redis cid with
        | none => simp [route, RedisManager.disconnect, hg]
        | some conn =>
            cases hco : conn.client with
            | none => simp [route, RedisManager.disconnect, hg, hco]
            | some c =>
                cases he : c.quitH with
                | error e => simp [route, RedisManager.disconnect, hg, hco, he]
                | ok u =>
                    simp [route, RedisManager.disconnect, hg, hco, he,
                      wrapVoid] at hfail
      · intro cid' hco2
        injection hco2 with hcc
        subst hcc
        refine ⟨by simp [route], ?_⟩
        cases hg : mapGet st.redis cid with
        | none => exact .inl (by simp [route, RedisManager.disconnect, hg])
        | some conn =>
            cases hco : conn.client with
            | none =>
                exact .inl (by simp [route, RedisManager.disconnect, hg, hco])
            | some c =>
                cases he : c.quitH with
                | error e =>
                    exact .inl
                      (by simp [route, RedisManager.disconnect, hg, hco, he])
                | ok u =>
                    exact .inr
                      (by simp [route, RedisManager.disconnect, hg, hco, he])
  | _ => exact ⟨fun _ => rfl, fun _ => rfl, by simp, by simp, by simp, by simp⟩

end DbClient
